import Mathlib

/-!
Shallow embedding of the tortilla HTTP wrapper (src/tortilla/wrappers.py).

The source has two classes.  `Client` owns default headers, a debug flag and an
in-memory response cache, and its `request` method performs one HTTP call with
cache lookup, cache store and debug-trace selection.  `Wrap` represents one URL
path segment; it builds child segments lazily through dynamic attribute access
(`__getattr__` / `__call__`), computes the joined path (`parts`) and dispatches
verb calls up the parent chain to the `Client`.

Modelling conventions:
* Python dicts are association lists under the `PyDict` namespace; `set`
  replaces an existing binding in place, `erase` removes the binding for a key.
* The HTTP transport is a parameter: an `HttpResponse` whose `body` field is
  the outcome of `r.json()` (`none` means the body is not valid JSON, in which
  case the source raises the parse error).
* Times and cache lifetimes are modelled as `Int` (only ordering and addition
  matter to the code).
* The codebase depends on the `bunch` library and is Python 2 code; Python 2
  comparison semantics apply where `None` meets a number (`None > 0` is
  `False`).
* Object identity of dynamically created child `Wrap` objects is modelled with
  explicit numeric ids allocated from a counter (`WrapState`), and the
  mutability of the stored `headers` bunch is modelled with an explicit heap of
  header mappings (`HeadersHeap`) where that is what a claim is about.
-/

namespace Tortilla

namespace PyDict

/-- Lookup in a Python-dict model (association list). -/
def find? {κ ν : Type} [DecidableEq κ] : List (κ × ν) → κ → Option ν
  | [], _ => none
  | kv :: rest, key => if key = kv.1 then some kv.2 else find? rest key

/-- Assignment `d[key] = val` in a Python-dict model: replaces an existing
binding in place, otherwise appends. -/
def set {κ ν : Type} [DecidableEq κ] : List (κ × ν) → κ → ν → List (κ × ν)
  | [], key, val => [(key, val)]
  | kv :: rest, key, val =>
      if key = kv.1 then (key, val) :: rest else kv :: set rest key val

/-- Deletion `del d[key]` in a Python-dict model: removes the binding for the
key (a Python dict holds at most one binding per key). -/
def erase {κ ν : Type} [DecidableEq κ] (d : List (κ × ν)) (key : κ) :
    List (κ × ν) :=
  d.filter (fun kv => decide (kv.1 ≠ key))

/-- The `dict.update` method: assigns every binding of `other` into `d`. -/
def update {κ ν : Type} [DecidableEq κ] (d other : List (κ × ν)) :
    List (κ × ν) :=
  other.foldl (fun acc kv => set acc kv.1 kv.2) d

theorem find?_set_self {κ ν : Type} [DecidableEq κ] (d : List (κ × ν))
    (k : κ) (v : ν) : find? (set d k v) k = some v := by
  induction d with
  | nil => simp [set, find?]
  | cons kv rest ih =>
      by_cases h : k = kv.1
      · simp [set, h, find?]
      · simp [set, h, find?, ih]

theorem find?_set_ne {κ ν : Type} [DecidableEq κ] (d : List (κ × ν))
    (k k2 : κ) (v : ν) (h : k2 ≠ k) : find? (set d k v) k2 = find? d k2 := by
  induction d with
  | nil => simp [set, find?, h]
  | cons kv rest ih =>
      by_cases hk : k = kv.1
      · subst hk
        simp [set, find?, h]
      · by_cases hk2 : k2 = kv.1
        · simp [set, hk, find?, hk2]
        · simp [set, hk, find?, hk2, ih]

theorem find?_erase_self {κ ν : Type} [DecidableEq κ] (d : List (κ × ν))
    (k : κ) : find? (erase d k) k = none := by
  induction d with
  | nil => simp [erase, find?]
  | cons kv rest ih =>
      by_cases h : kv.1 = k
      · simpa [erase, h] using ih
      · have hne : ¬ k = kv.1 := fun hc => h hc.symm
        simpa [erase, h, find?, hne] using ih

theorem find?_erase_ne {κ ν : Type} [DecidableEq κ] (d : List (κ × ν))
    (k k2 : κ) (h : k2 ≠ k) : find? (erase d k) k2 = find? d k2 := by
  induction d with
  | nil => simp [erase, find?]
  | cons kv rest ih =>
      by_cases hk : kv.1 = k
      · have hne : ¬ k2 = kv.1 := fun hc => h (hc.trans hk)
        simpa [erase, hk, find?, hne, h] using ih
      · by_cases hk2 : k2 = kv.1
        · simp [erase, hk, find?, hk2]
        · simpa [erase, hk, find?, hk2] using ih

theorem find?_eq_none_of_not_mem {κ ν : Type} [DecidableEq κ]
    (d : List (κ × ν)) (k : κ) (h : k ∉ d.map Prod.fst) : find? d k = none := by
  induction d with
  | nil => simp [find?]
  | cons kv rest ih =>
      simp only [List.map_cons, List.mem_cons] at h
      push_neg at h
      simp [find?, h.1, ih h.2]

theorem find?_update {κ ν : Type} [DecidableEq κ] (d o : List (κ × ν))
    (k : κ) (hnd : (o.map Prod.fst).Nodup) :
    find? (update d o) k = (find? o k).orElse (fun _ => find? d k) := by
  induction o generalizing d with
  | nil => simp [update, find?, Option.orElse]
  | cons kv rest ih =>
      simp only [List.map_cons, List.nodup_cons] at hnd
      have step : update d (kv :: rest) = update (set d kv.1 kv.2) rest := rfl
      by_cases hk : k = kv.1
      · subst hk
        rw [step, ih _ hnd.2, find?_eq_none_of_not_mem rest _ hnd.1,
            find?_set_self]
        simp [find?, Option.orElse]
      · rw [step, ih _ hnd.2, find?_set_ne _ _ _ _ hk]
        simp [find?, hk]

end PyDict

/-- The join `sep.join(xs)` of Python on a list of strings. -/
def joinWith (sep : String) : List String → String
  | [] => ""
  | [x] => x
  | x :: y :: ys => x ++ sep ++ joinWith sep (y :: ys)

/-- Forward-slash join, as used for `path` and for `Wrap.parts`. -/
def joinSlash (xs : List String) : String :=
  joinWith "/" xs

/-- ASCII lower-casing of one character, as `str.lower` does on the method
names the code compares. -/
def pyCharLower (c : Char) : Char :=
  if 65 ≤ c.toNat ∧ c.toNat ≤ 90 then Char.ofNat (c.toNat + 32) else c

/-- The Python `str.lower` method (ASCII range, enough for HTTP verbs). -/
def pyLower (s : String) : String :=
  ⟨s.data.map pyCharLower⟩

/-- The comparison `cache_lifetime > 0` where `cache_lifetime` may be `None`.
Python 2 semantics (the `bunch` dependency pins the codebase to Python 2):
`None` compares below every number, so `None > 0` is `False`. -/
def pyGtZero : Option Int → Bool
  | none => false
  | some n => decide (0 < n)

/-- Truthiness test `not x` for an optional string (`None` and the empty
string are falsy). -/
def pyFalsyOptStr : Option String → Bool
  | none => true
  | some s => s == ""

/-- A string rendering of a string-to-string dict, standing in for the Python
`str` call used to build cache keys. -/
def pyStrOfDict (d : List (String × String)) : String :=
  "dict(" ++ joinWith ", " (d.map (fun kv => kv.1 ++ ": " ++ kv.2)) ++ ")"

/-- The `str(x)` rendering of an optional dict argument (as used on the
`params` and `headers` arguments when forming the cache key). -/
def pyStrOfOptDict : Option (List (String × String)) → String
  | none => "None"
  | some d => pyStrOfDict d

/-- A JSON value, the result of `r.json()` on a well-formed body. -/
inductive JSON where
  | null
  | bool (b : Bool)
  | num (n : Int)
  | str (s : String)
  | arr (xs : List JSON)
  | obj (fields : List (String × JSON))

/-- The call `bunch.bunchify(v)`: wraps JSON objects so that they are
attribute-navigable; the contained data is unchanged, so on the JSON value
model it is the identity. -/
def bunchify (v : JSON) : JSON := v

/-- A value passed as the primary-key argument `pk` of `Wrap.request`
(`None` by default). -/
inductive Pk where
  | pynone
  | int (n : Int)
  | str (s : String)

/-- Python truthiness `if pk:` of a primary key: `None`, `0` and the empty
string are falsy. -/
def Pk.truthy : Pk → Bool
  | .pynone => false
  | .int n => !(n == 0)
  | .str s => !(s == "")

/-- The `to_unicode(pk)` conversion: the string form of the primary key. -/
def Pk.toStr : Pk → String
  | .pynone => "None"
  | .int n => toString n
  | .str s => s

/-- Header mappings (`bunch.Bunch` / plain dicts of strings in the source). -/
abbrev Headers := List (String × String)

/-- Query-parameter mappings (only their `str` rendering matters here). -/
abbrev Params := List (String × String)

/-- One stored cache item: `{'expires': ..., 'value': ...}`. -/
structure CacheEntry where
  expires : Int
  value : JSON

/-- The cache key `(url, str(params), str(headers))` of `Client.request`. -/
abbrev CacheKey := String × String × String

/-- The cache mapping `Client.cache`. -/
abbrev Cache := List (CacheKey × CacheEntry)

/-- The state of a `Client`: default headers, debug flag, response cache.
`Client.__init__` has `debug=False`, but a root `Wrap` builds its client as
`Client(debug=debug)` where `debug` may be `None`, so the field is optional. -/
structure ClientState where
  headers : Headers
  debug : Option Bool
  cache : Cache

/-- The transport collaborator output: status code, reason phrase, and the
outcome of `r.json()` on the raw body (`none` when parsing fails). -/
structure HttpResponse where
  status_code : Int
  reason : String
  body : Option JSON

/-- Which response debug trace `Client.request` selects. -/
inductive Trace where
  | cached
  | success
  | failure
deriving DecidableEq

/-- Errors that `Client.request` can raise: the JSON parse failure. -/
inductive ReqError where
  | parseError
deriving DecidableEq

/-- Everything observable about one `Client.request` call: the returned value
or raised error, the cache left behind, whether the transport was invoked,
which response trace was selected, and the effective debug flag used for
logging. -/
structure ReqOutcome where
  result : Except ReqError JSON
  cache : Cache
  networkUsed : Bool
  trace : Option Trace
  effDebug : Option Bool
  sentHeaders : Option Headers

/-- The `path` argument of `Client.request`: a string, or a sequence that is
joined with forward slashes. -/
inductive PathArg where
  | str (s : String)
  | seq (xs : List String)

/-- The string form of the `path` argument
(`if not isinstance(path, string_type): path = slash-join(path)`). -/
def pathArgStr : PathArg → String
  | .str s => s
  | .seq xs => joinSlash xs

/-- The final URL `url + path` requested by `Client.request`. -/
def finalUrl (url0 : String) (path : PathArg) : String :=
  url0 ++ pathArgStr path

/-- The cache key computed by `Client.request`:
`(url, str(params), str(headers))` built from the final URL and the raw
(pre-merge) `params` and `headers` arguments. -/
def requestKey (url0 : String) (path : PathArg) (params : Option Params)
    (headersArg : Option Headers) : CacheKey :=
  (finalUrl url0 path, pyStrOfOptDict params, pyStrOfOptDict headersArg)

/-- The effective debug flag of one `Client.request` call:
`if debug is None: debug = self.debug`. -/
def clientEffDebug (selfDebug debugArg : Option Bool) : Option Bool :=
  match debugArg with
  | none => selfDebug
  | some d => some d

/-- The merged request headers of `Client.request`: a copy of the client
defaults, updated with the `headers` argument when one was passed. -/
def clientMergedHeaders (st : ClientState) (headersArg : Option Headers) :
    Headers :=
  match headersArg with
  | none => st.headers
  | some h => PyDict.update st.headers h

/-- The continuation of `Client.request` after the cache lookup: transport
call, JSON parsing, conditional cache store, response-trace selection. -/
def clientRequestNet (cache : Cache) (method : String) (key : CacheKey)
    (requestHeaders : Headers) (cacheLifetime : Option Int) (now : Int)
    (resp : HttpResponse) (debug : Option Bool) : ReqOutcome :=
  match resp.body with
  | none =>
      { result := .error .parseError, cache := cache, networkUsed := true,
        trace := none, effDebug := debug,
        sentHeaders := some requestHeaders }
  | some jsonResponse =>
      let cache :=
        if pyGtZero cacheLifetime && (pyLower method == "get") then
          PyDict.set cache key
            { expires := now + cacheLifetime.getD 0, value := jsonResponse }
        else cache
      let trace := if resp.status_code == 200 then Trace.success else
        Trace.failure
      { result := .ok (bunchify jsonResponse), cache := cache,
        networkUsed := true, trace := some trace, effDebug := debug,
        sentHeaders := some requestHeaders }

/-- `Client.request(method, url, path, params, headers, data, debug,
cache_lifetime, **kwargs)`: header merge, debug resolution, URL and cache-key
computation, cache lookup with lazy expiry, then the network phase.  The
`data` and `kwargs` arguments pass through to the transport untouched and do
not appear in the observable outcome, so they are omitted. -/
def clientRequest (st : ClientState) (method url0 : String) (path : PathArg)
    (params : Option Params) (headersArg : Option Headers)
    (debugArg : Option Bool) (cacheLifetime : Option Int) (now : Int)
    (resp : HttpResponse) : ReqOutcome :=
  let requestHeaders := clientMergedHeaders st headersArg
  let debug := clientEffDebug st.debug debugArg
  let key := requestKey url0 path params headersArg
  match PyDict.find? st.cache key with
  | some item =>
      if now < item.expires then
        { result := .ok (bunchify item.value), cache := st.cache,
          networkUsed := false, trace := some .cached, effDebug := debug,
          sentHeaders := none }
      else
        clientRequestNet (PyDict.erase st.cache key) method key requestHeaders
          cacheLifetime now resp debug
  | none =>
      clientRequestNet st.cache method key requestHeaders cacheLifetime now
        resp debug

theorem clientRequestNet_parse_fail (cache : Cache) (method : String)
    (key : CacheKey) (rh : Headers) (lifetime : Option Int) (now : Int)
    (resp : HttpResponse) (debug : Option Bool) (hb : resp.body = none) :
    clientRequestNet cache method key rh lifetime now resp debug =
      { result := .error .parseError, cache := cache, networkUsed := true,
        trace := none, effDebug := debug, sentHeaders := some rh } := by
  simp [clientRequestNet, hb]

theorem clientRequestNet_parse_ok (cache : Cache) (method : String)
    (key : CacheKey) (rh : Headers) (lifetime : Option Int) (now : Int)
    (resp : HttpResponse) (debug : Option Bool) (j : JSON)
    (hb : resp.body = some j) :
    clientRequestNet cache method key rh lifetime now resp debug =
      { result := .ok (bunchify j),
        cache :=
          if pyGtZero lifetime && (pyLower method == "get") then
            PyDict.set cache key
              { expires := now + lifetime.getD 0, value := j }
          else cache,
        networkUsed := true,
        trace := some (if resp.status_code == 200 then Trace.success else
          Trace.failure),
        effDebug := debug, sentHeaders := some rh } := by
  simp [clientRequestNet, hb]

theorem clientRequest_hit (st : ClientState) (method url0 : String)
    (path : PathArg) (params : Option Params) (headersArg : Option Headers)
    (debugArg : Option Bool) (cacheLifetime : Option Int) (now : Int)
    (resp : HttpResponse) (e : CacheEntry)
    (hfind : PyDict.find? st.cache (requestKey url0 path params headersArg) =
      some e)
    (hexp : now < e.expires) :
    clientRequest st method url0 path params headersArg debugArg
        cacheLifetime now resp =
      { result := .ok (bunchify e.value), cache := st.cache,
        networkUsed := false, trace := some .cached,
        effDebug := clientEffDebug st.debug debugArg,
        sentHeaders := none } := by
  simp only [clientRequest]
  rw [hfind]
  simp [hexp]

theorem clientRequest_miss (st : ClientState) (method url0 : String)
    (path : PathArg) (params : Option Params) (headersArg : Option Headers)
    (debugArg : Option Bool) (cacheLifetime : Option Int) (now : Int)
    (resp : HttpResponse)
    (hfind : PyDict.find? st.cache (requestKey url0 path params headersArg) =
      none) :
    clientRequest st method url0 path params headersArg debugArg
        cacheLifetime now resp =
      clientRequestNet st.cache method
        (requestKey url0 path params headersArg)
        (clientMergedHeaders st headersArg) cacheLifetime now resp
        (clientEffDebug st.debug debugArg) := by
  simp only [clientRequest]
  rw [hfind]

theorem clientRequest_expired (st : ClientState) (method url0 : String)
    (path : PathArg) (params : Option Params) (headersArg : Option Headers)
    (debugArg : Option Bool) (cacheLifetime : Option Int) (now : Int)
    (resp : HttpResponse) (e : CacheEntry)
    (hfind : PyDict.find? st.cache (requestKey url0 path params headersArg) =
      some e)
    (hexp : e.expires ≤ now) :
    clientRequest st method url0 path params headersArg debugArg
        cacheLifetime now resp =
      clientRequestNet
        (PyDict.erase st.cache (requestKey url0 path params headersArg))
        method (requestKey url0 path params headersArg)
        (clientMergedHeaders st headersArg) cacheLifetime now resp
        (clientEffDebug st.debug debugArg) := by
  simp only [clientRequest]
  rw [hfind]
  simp [Int.not_lt.mpr hexp]

theorem clientRequestNet_effDebug (cache : Cache) (method : String)
    (key : CacheKey) (rh : Headers) (lifetime : Option Int) (now : Int)
    (resp : HttpResponse) (debug : Option Bool) :
    (clientRequestNet cache method key rh lifetime now resp debug).effDebug =
      debug := by
  cases hb : resp.body <;> simp [clientRequestNet, hb]

theorem clientRequest_effDebug (st : ClientState) (method url0 : String)
    (path : PathArg) (params : Option Params) (headersArg : Option Headers)
    (debugArg : Option Bool) (cacheLifetime : Option Int) (now : Int)
    (resp : HttpResponse) :
    (clientRequest st method url0 path params headersArg debugArg
        cacheLifetime now resp).effDebug =
      clientEffDebug st.debug debugArg := by
  rcases hfind : PyDict.find? st.cache
      (requestKey url0 path params headersArg) with _ | e
  · rw [clientRequest_miss st method url0 path params headersArg debugArg
      cacheLifetime now resp hfind, clientRequestNet_effDebug]
  · rcases Int.lt_or_le now e.expires with hexp | hexp
    · rw [clientRequest_hit st method url0 path params headersArg debugArg
        cacheLifetime now resp e hfind hexp]
    · rw [clientRequest_expired st method url0 path params headersArg
        debugArg cacheLifetime now resp e hfind hexp,
        clientRequestNet_effDebug]

theorem clientRequest_nohit (st : ClientState) (method url0 : String)
    (path : PathArg) (params : Option Params) (headersArg : Option Headers)
    (debugArg : Option Bool) (cacheLifetime : Option Int) (now : Int)
    (resp : HttpResponse)
    (hnohit : ∀ e : CacheEntry,
      PyDict.find? st.cache (requestKey url0 path params headersArg) =
        some e → e.expires ≤ now) :
    ∃ cacheBase : Cache,
      PyDict.find? cacheBase (requestKey url0 path params headersArg) =
        none ∧
      (∀ k2 : CacheKey, k2 ≠ requestKey url0 path params headersArg →
        PyDict.find? cacheBase k2 = PyDict.find? st.cache k2) ∧
      (PyDict.find? st.cache (requestKey url0 path params headersArg) =
        none → cacheBase = st.cache) ∧
      clientRequest st method url0 path params headersArg debugArg
          cacheLifetime now resp =
        clientRequestNet cacheBase method
          (requestKey url0 path params headersArg)
          (clientMergedHeaders st headersArg) cacheLifetime now resp
          (clientEffDebug st.debug debugArg) := by
  rcases hfind : PyDict.find? st.cache
      (requestKey url0 path params headersArg) with _ | e
  · exact ⟨st.cache, hfind, fun _ _ => rfl, fun _ => rfl,
      clientRequest_miss st method url0 path params headersArg debugArg
        cacheLifetime now resp hfind⟩
  · refine ⟨PyDict.erase st.cache (requestKey url0 path params headersArg),
      PyDict.find?_erase_self _ _, ?_, ?_, ?_⟩
    · intro k2 hk2
      exact PyDict.find?_erase_ne _ _ _ hk2
    · exact fun habs => absurd habs (by simp [hfind])
    · exact clientRequest_expired st method url0 path params headersArg
        debugArg cacheLifetime now resp e hfind (hnohit e hfind)

/-- A `Wrap` chain: one URL path segment with its stored options.  A root
node was built without a parent, so `Wrap.__init__` gave it a fresh
`Client(debug=debug)` as parent; a child node points at its parent `Wrap`. -/
inductive Wrap where
  | root (part : String) (headers : Headers) (debug : Option Bool)
      (cacheLifetime : Option Int)
  | child (part : String) (parent : Wrap) (headers : Headers)
      (debug : Option Bool) (cacheLifetime : Option Int)

/-- The `self.part` field of a node. -/
def Wrap.part : Wrap → String
  | .root p _ _ _ => p
  | .child p _ _ _ _ => p

/-- The `self.headers` field of a node (a `bunch.Bunch`; empty when the
constructor received a falsy `headers`). -/
def Wrap.headers : Wrap → Headers
  | .root _ h _ _ => h
  | .child _ _ h _ _ => h

/-- The `self.debug` field of a node. -/
def Wrap.debug : Wrap → Option Bool
  | .root _ _ d _ => d
  | .child _ _ _ d _ => d

/-- The `self.cache_lifetime` field of a node. -/
def Wrap.cacheLifetime : Wrap → Option Int
  | .root _ _ _ cl => cl
  | .child _ _ _ _ cl => cl

/-- The debug flag of the `Client` at the end of the parent chain: a root
node built its parent as `Client(debug=debug)` with its own `debug`
argument. -/
def Wrap.clientDebug : Wrap → Option Bool
  | .root _ _ d _ => d
  | .child _ p _ _ _ => p.clientDebug

/-- `Wrap.parts`: the joined path of the chain.  The source tries
`slash-join(self.parent.parts(), self.part)` and falls back to `self.part`
when the parent has no `parts` method, which is exactly the case where the
parent is the `Client`.  The `_parts` field only memoizes the computed string
(recomputation yields the same value), so the pure recursion is the observable
behavior. -/
def Wrap.parts : Wrap → String
  | .root part _ _ _ => part
  | .child part parent _ _ _ => Wrap.parts parent ++ "/" ++ part

/-- The child built by `Wrap.__getattr__`:
`Wrap(part=part, parent=self, debug=self.debug)`, hence empty headers, the
debug flag of the current node, and no cache lifetime. -/
def Wrap.childAttr (w : Wrap) (part : String) : Wrap :=
  .child part w [] w.debug none

/-- The keyword options dict that flows through `Wrap.request` on its way to
`Client.request`.  The fields that `Wrap.request` reads or writes are
modelled; the remaining keywords (`params`, `data`, transport extras) pass
through unchanged. -/
structure ReqOptions where
  url : Option String
  debug : Option Bool
  cacheLifetime : Option Int
  headers : Option Headers

/-- The URL-resolution block of `Wrap.request`: when `options.get('url')` is
falsy, a truthy primary key makes the URL the slash-join of the path and the
key's string form, otherwise the path alone. -/
def Wrap.stepUrl (w : Wrap) (pk : Pk) (o : ReqOptions) : ReqOptions :=
  if pyFalsyOptStr o.url then
    if pk.truthy then
      { o with url := some (joinSlash [w.parts, pk.toStr]) }
    else
      { o with url := some w.parts }
  else o

/-- The debug block of `Wrap.request`:
`if self.debug is not None: options.setdefault('debug', self.debug)`. -/
def Wrap.stepDebug (w : Wrap) (o : ReqOptions) : ReqOptions :=
  if w.debug.isSome then
    { o with debug := o.debug.orElse (fun _ => w.debug) }
  else o

/-- The cache-lifetime block of `Wrap.request`:
`if self.cache_lifetime is not None:
options.setdefault('cache_lifetime', self.cache_lifetime)`. -/
def Wrap.stepCacheLifetime (w : Wrap) (o : ReqOptions) : ReqOptions :=
  if w.cacheLifetime.isSome then
    { o with
        cacheLifetime := o.cacheLifetime.orElse (fun _ => w.cacheLifetime) }
  else o

/-- The headers block of `Wrap.request`: copy the node's own headers, update
the copy with a truthy `options['headers']`, and store the result back into
the options. -/
def Wrap.stepHeaders (w : Wrap) (o : ReqOptions) : ReqOptions :=
  let hs := w.headers
  let hs := match o.headers with
    | some oh => if oh.isEmpty then hs else PyDict.update hs oh
    | none => hs
  { o with headers := some hs }

/-- One activation of `Wrap.request` (the option-manipulating part): URL
resolution from the path and the primary key, `setdefault` of the debug flag
and cache lifetime, and the copy-then-merge computation of the effective
headers, in source order.  The source then calls
`self.parent.request(method=method, **options)` with exactly these options. -/
def Wrap.requestStep (w : Wrap) (pk : Pk) (options : ReqOptions) :
    ReqOptions :=
  Wrap.stepHeaders w
    (Wrap.stepCacheLifetime w (Wrap.stepDebug w (Wrap.stepUrl w pk options)))

/-- The full dispatch of `Wrap.request`: every node forwards to
`self.parent.request(method=method, **options)`, so each ancestor runs its
own `Wrap.request` activation (with `pk=None`) until the root's parent, the
`Client`, receives the final options. -/
def Wrap.requestDispatch : Wrap → Pk → ReqOptions → ReqOptions
  | .root part h d cl, pk, options =>
      Wrap.requestStep (.root part h d cl) pk options
  | .child part parent h d cl, pk, options =>
      Wrap.requestDispatch parent .pynone
        (Wrap.requestStep (.child part parent h d cl) pk options)

theorem stepUrl_debug (w : Wrap) (pk : Pk) (o : ReqOptions) :
    (Wrap.stepUrl w pk o).debug = o.debug := by
  simp only [Wrap.stepUrl]
  split
  · split <;> rfl
  · rfl

theorem stepUrl_url_of_some (w : Wrap) (pk : Pk) (o : ReqOptions)
    (u : String) (hu : o.url = some u) (hne : u ≠ "") :
    Wrap.stepUrl w pk o = o := by
  simp [Wrap.stepUrl, pyFalsyOptStr, hu, hne]

theorem stepDebug_url (w : Wrap) (o : ReqOptions) :
    (Wrap.stepDebug w o).url = o.url := by
  simp only [Wrap.stepDebug]
  split <;> rfl

theorem stepDebug_of_some (w : Wrap) (o : ReqOptions) (db : Bool)
    (h : o.debug = some db) : (Wrap.stepDebug w o).debug = some db := by
  simp only [Wrap.stepDebug]
  split
  · simp [h, Option.orElse]
  · exact h

theorem stepDebug_of_none (w : Wrap) (o : ReqOptions) (b : Bool)
    (ho : o.debug = none) (hw : w.debug = some b) :
    (Wrap.stepDebug w o).debug = some b := by
  simp [Wrap.stepDebug, hw, ho, Option.orElse]

theorem stepCacheLifetime_url (w : Wrap) (o : ReqOptions) :
    (Wrap.stepCacheLifetime w o).url = o.url := by
  simp only [Wrap.stepCacheLifetime]
  split <;> rfl

theorem stepCacheLifetime_debug (w : Wrap) (o : ReqOptions) :
    (Wrap.stepCacheLifetime w o).debug = o.debug := by
  simp only [Wrap.stepCacheLifetime]
  split <;> rfl

theorem stepHeaders_url (w : Wrap) (o : ReqOptions) :
    (Wrap.stepHeaders w o).url = o.url := rfl

theorem stepHeaders_debug (w : Wrap) (o : ReqOptions) :
    (Wrap.stepHeaders w o).debug = o.debug := rfl

theorem requestStep_url_of_some (w : Wrap) (pk : Pk) (o : ReqOptions)
    (u : String) (hu : o.url = some u) (hne : u ≠ "") :
    (Wrap.requestStep w pk o).url = some u := by
  rw [Wrap.requestStep, stepHeaders_url, stepCacheLifetime_url, stepDebug_url,
    stepUrl_url_of_some w pk o u hu hne, hu]

theorem requestStep_debug_of_some (w : Wrap) (pk : Pk) (o : ReqOptions)
    (db : Bool) (h : o.debug = some db) :
    (Wrap.requestStep w pk o).debug = some db := by
  rw [Wrap.requestStep, stepHeaders_debug, stepCacheLifetime_debug]
  exact stepDebug_of_some w _ db ((stepUrl_debug w pk o).trans h)

theorem requestDispatch_url_of_some (w : Wrap) (pk : Pk) (o : ReqOptions)
    (u : String) (hu : o.url = some u) (hne : u ≠ "") :
    (Wrap.requestDispatch w pk o).url = some u := by
  induction w generalizing pk o with
  | root part h d cl =>
      exact requestStep_url_of_some _ pk o u hu hne
  | child part parent h d cl ih =>
      exact ih .pynone _ (requestStep_url_of_some _ pk o u hu hne)

theorem requestDispatch_debug_of_some (w : Wrap) (pk : Pk) (o : ReqOptions)
    (db : Bool) (h : o.debug = some db) :
    (Wrap.requestDispatch w pk o).debug = some db := by
  induction w generalizing pk o with
  | root part hd d cl =>
      exact requestStep_debug_of_some _ pk o db h
  | child part parent hd d cl ih =>
      exact ih .pynone _ (requestStep_debug_of_some _ pk o db h)

/-- A heap of header mappings, used to model the mutability of the `Bunch`
objects that `Wrap.request` copies and updates: each reference number points
at the current contents of one headers object. -/
structure HeadersHeap where
  refs : List (Nat × Headers)
  nextRef : Nat

/-- The effective-headers computation of `Wrap.request`, on the headers heap:
`headers = self.headers.copy()` allocates a fresh object with the same
contents, `if options.get('headers'): headers.update(options['headers'])`
mutates only that fresh object (skipped for a falsy, i.e. absent or empty,
option).  Returns the new heap and the reference stored into
`options['headers']`. -/
def wrapEffectiveHeaders (st : HeadersHeap) (selfRef : Nat)
    (optHeaders : Option Headers) : HeadersHeap × Nat :=
  let own := (PyDict.find? st.refs selfRef).getD []
  let newRef := st.nextRef
  let refs := PyDict.set st.refs newRef own
  let refs := match optHeaders with
    | some oh => if oh.isEmpty then refs
        else PyDict.set refs newRef (PyDict.update own oh)
    | none => refs
  ({ refs := refs, nextRef := newRef + 1 }, newRef)

/-- A chain `root/a/b/c` built purely by dynamic attribute access from a root
node (the form the spec's path property quantifies over). -/
def chainOf (rootPart : String) (segs : List String) : Wrap :=
  segs.foldl (fun w s => w.childAttr s) (Wrap.root rootPart [] none none)

theorem parts_foldl (segs : List String) (w : Wrap) :
    Wrap.parts (segs.foldl (fun a s => a.childAttr s) w) =
      joinSlash (w.parts :: segs) := by
  induction segs generalizing w with
  | nil => simp [joinSlash, joinWith]
  | cons s rest ih =>
      rw [List.foldl_cons, ih]
      cases rest with
      | nil => simp [joinSlash, joinWith, Wrap.childAttr, Wrap.parts]
      | cons t ts =>
          simp [joinSlash, joinWith, Wrap.childAttr, Wrap.parts,
            String.append_assoc]

theorem wrapEffectiveHeaders_frame (st : HeadersHeap) (selfRef r : Nat)
    (optHeaders : Option Headers) (hr : r < st.nextRef) :
    PyDict.find? (wrapEffectiveHeaders st selfRef optHeaders).1.refs r =
      PyDict.find? st.refs r := by
  have hne : r ≠ st.nextRef := Nat.ne_of_lt hr
  simp only [wrapEffectiveHeaders]
  cases optHeaders with
  | none => simpa using PyDict.find?_set_ne st.refs st.nextRef r _ hne
  | some oh =>
      by_cases he : oh.isEmpty
      · simp [he, PyDict.find?_set_ne _ _ _ _ hne]
      · simp [he, PyDict.find?_set_ne _ _ _ _ hne]

theorem wrapEffectiveHeaders_result (st : HeadersHeap) (selfRef : Nat)
    (own : Headers) (optHeaders : Option Headers)
    (hself : PyDict.find? st.refs selfRef = some own)
    (hnd : ((optHeaders.getD []).map Prod.fst).Nodup) :
    ∃ eff : Headers,
      PyDict.find? (wrapEffectiveHeaders st selfRef optHeaders).1.refs
          (wrapEffectiveHeaders st selfRef optHeaders).2 = some eff ∧
      ∀ k : String, PyDict.find? eff k =
        (PyDict.find? (optHeaders.getD []) k).orElse
          (fun _ => PyDict.find? own k) := by
  simp only [wrapEffectiveHeaders, hself, Option.getD_some]
  cases optHeaders with
  | none =>
      refine ⟨own, by simpa using PyDict.find?_set_self st.refs st.nextRef own,
        ?_⟩
      intro k
      simp [PyDict.find?, Option.orElse]
  | some oh =>
      by_cases he : oh.isEmpty
      · have hnil : oh = [] := List.isEmpty_iff.mp he
        subst hnil
        refine ⟨own,
          by simpa using PyDict.find?_set_self st.refs st.nextRef own, ?_⟩
        intro k
        simp [PyDict.find?, Option.orElse]
      · refine ⟨PyDict.update own oh, ?_, ?_⟩
        · simpa [he] using
            PyDict.find?_set_self
              (PyDict.set st.refs st.nextRef own) st.nextRef
              (PyDict.update own oh)
        · intro k
          simpa using PyDict.find?_update own oh k (by simpa using hnd)

theorem wrapEffectiveHeaders_none_copy (st : HeadersHeap) (selfRef : Nat)
    (own : Headers) (hself : PyDict.find? st.refs selfRef = some own) :
    PyDict.find? (wrapEffectiveHeaders st selfRef none).1.refs
        (wrapEffectiveHeaders st selfRef none).2 = some own := by
  simp only [wrapEffectiveHeaders, hself, Option.getD_some]
  simpa using PyDict.find?_set_self st.refs st.nextRef own

/-- A Python value stored in a `Wrap` instance dictionary. -/
inductive PyVal where
  | pynone
  | pybool (b : Bool)
  | pyint (n : Int)
  | pystr (s : String)
  | headersV (h : Headers)
  | wrapRef (id : Nat)
  | clientRef (id : Nat)
deriving DecidableEq

/-- An instance dictionary `self.__dict__` of a `Wrap` object. -/
abbrev NodeDict := List (String × PyVal)

/-- Keyword options `**options` of `Wrap.__call__`. -/
abbrev CallOpts := List (String × PyVal)

/-- The construction record of one dynamically created child:
`Wrap(part=part, parent=self, debug=self.debug, **options)`. -/
structure ChildSpec where
  part : String
  parentId : Nat
  debug : PyVal
  opts : CallOpts
deriving DecidableEq

/-- The mutable state of one `Wrap` object under dynamic access: its identity,
its instance dictionary, the children it allocated (with their construction
records, keyed by identity), and the allocation counter that models object
identity of freshly created children. -/
structure WrapState where
  selfId : Nat
  dict : NodeDict
  children : List (Nat × ChildSpec)
  nextId : Nat
deriving DecidableEq

/-- The instance dictionary right after `Wrap.__init__`: the fields `part`,
`_parts`, `parent`, `headers`, `debug` and `cache_lifetime` are assigned in
this order (`headers` becomes empty when the argument is falsy). -/
def wrapInitDict (part : String) (parentRef : PyVal)
    (headers : Option Headers) (debug : PyVal) (cacheLifetime : PyVal) :
    NodeDict :=
  [("part", .pystr part), ("_parts", .pynone), ("parent", parentRef),
   ("headers", .headersV (headers.getD [])), ("debug", debug),
   ("cache_lifetime", cacheLifetime)]

/-- The value `self.debug` read while constructing a child (the `debug` key is
always present, assigned by `Wrap.__init__`). -/
def selfDebugVal (st : WrapState) : PyVal :=
  (PyDict.find? st.dict "debug").getD .pynone

/-- The option keys that the child-creating call
`Wrap(part=part, parent=self, debug=self.debug, **options)` of
`Wrap.__call__` can still accept through `**options`: the remaining keyword
parameters of `Wrap.__init__`.  Passing `part`, `parent` or `debug` again is a
duplicate keyword argument, and any name outside the `__init__` signature is
an unexpected keyword argument; both raise `TypeError` before any child is
created or stored. -/
def validChildOptKeys : List String := ["headers", "cache_lifetime"]

/-- Whether the construction options of a call-style child creation are
accepted by the `Wrap.__init__` call (otherwise it raises `TypeError`). -/
def ctorOptsOk (opts : CallOpts) : Bool :=
  opts.all (fun kv => validChildOptKeys.contains kv.1)

/-- The outcome of `Wrap.__call__`: a returned value, or a raised
`TypeError` from the child-constructor call. -/
inductive CallResult where
  | val (v : PyVal)
  | typeError
deriving DecidableEq

/-- `Wrap.__getattr__(part)`: return `self.__dict__[part]` if present,
otherwise create `Wrap(part=part, parent=self, debug=self.debug)`, store it
under `part` and return it.  (Python only invokes `__getattr__` for names
that normal lookup misses; instance-dictionary lookup models attribute access
on these objects for names not shadowed by class attributes.) -/
def wrapGetattr (st : WrapState) (part : String) : WrapState × PyVal :=
  match PyDict.find? st.dict part with
  | some v => (st, v)
  | none =>
      let cid := st.nextId
      let spec : ChildSpec :=
        { part := part, parentId := st.selfId, debug := selfDebugVal st,
          opts := [] }
      ({ st with dict := PyDict.set st.dict part (.wrapRef cid),
                 children := st.children ++ [(cid, spec)],
                 nextId := cid + 1 },
       .wrapRef cid)

/-- `Wrap.__call__(part=None, **options)`: with a falsy `part`, merge the
options into `self.__dict__` and return `self` (that update accepts any
keys); otherwise return `self.__dict__[part]` if present — the `try` returns
before any constructor runs, so even colliding option keys are ignored for an
existing entry — else evaluate
`Wrap(part=part, parent=self, debug=self.debug, **options)`: with an option
key that duplicates an explicit keyword or falls outside the `__init__`
signature this raises `TypeError` and nothing is stored; otherwise the child
is created, stored and returned. -/
def wrapCall (st : WrapState) (part : Option String) (options : CallOpts) :
    WrapState × CallResult :=
  if pyFalsyOptStr part then
    ({ st with dict := PyDict.update st.dict options },
     .val (.wrapRef st.selfId))
  else
    let p := part.getD ""
    match PyDict.find? st.dict p with
    | some v => (st, .val v)
    | none =>
        if ctorOptsOk options then
          let cid := st.nextId
          let spec : ChildSpec :=
            { part := p, parentId := st.selfId, debug := selfDebugVal st,
              opts := options }
          ({ st with dict := PyDict.set st.dict p (.wrapRef cid),
                     children := st.children ++ [(cid, spec)],
                     nextId := cid + 1 },
           .val (.wrapRef cid))
        else (st, .typeError)

/-- Claim C5: path resolution.  For every chain root/a/b/c built by dynamic
access, the path of the deepest node is the segments joined by single forward
slashes with no leading or trailing slash; a node whose parent is the Client
yields its own segment alone, and any other node yields its parent's path, a
slash, then its own segment. -/
theorem path_resolution_join :
    (∀ (rootPart : String) (segs : List String),
      (chainOf rootPart segs).parts = joinSlash (rootPart :: segs)) ∧
    (chainOf "root" ["a", "b", "c"]).parts = "root/a/b/c" ∧
    (∀ (part : String) (h : Headers) (d : Option Bool) (cl : Option Int),
      (Wrap.root part h d cl).parts = part) ∧
    (∀ (part : String) (parent : Wrap) (h : Headers) (d : Option Bool)
        (cl : Option Int),
      (Wrap.child part parent h d cl).parts = parent.parts ++ "/" ++ part) := by
  refine ⟨?_, rfl, fun part h d cl => rfl, fun part parent h d cl => rfl⟩
  intro rootPart segs
  simpa [chainOf, Wrap.parts] using
    parts_foldl segs (Wrap.root rootPart [] none none)

/-- Claim C1: child-access memoization.  For a segment name not yet bound in
the instance dictionary, a first dynamic access — property-style, or
call-style with options the child constructor accepts — creates a child node
and stores its reference under the name; on every state holding that stored
reference, both property-style and call-style access return the identical
reference with the whole state — including the recorded construction options
of the existing child — unmodified, whatever options the call passes (for an
existing child the constructor never runs, so even otherwise-rejected option
keys are ignored). -/
theorem child_access_memoized (st : WrapState) (p : String) (hp : p ≠ "")
    (hnew : PyDict.find? st.dict p = none) :
    (wrapGetattr st p).2 = PyVal.wrapRef st.nextId ∧
    (∀ opts : CallOpts, ctorOptsOk opts = true →
      (wrapCall st (some p) opts).2 =
        CallResult.val (PyVal.wrapRef st.nextId)) ∧
    PyDict.find? (wrapGetattr st p).1.dict p =
      some (PyVal.wrapRef st.nextId) ∧
    (∀ opts : CallOpts, ctorOptsOk opts = true →
      PyDict.find? (wrapCall st (some p) opts).1.dict p =
        some (PyVal.wrapRef st.nextId)) ∧
    (∀ st2 : WrapState,
      PyDict.find? st2.dict p = some (PyVal.wrapRef st.nextId) →
      wrapGetattr st2 p = (st2, PyVal.wrapRef st.nextId) ∧
      ∀ opts : CallOpts,
        wrapCall st2 (some p) opts =
          (st2, CallResult.val (PyVal.wrapRef st.nextId))) := by
  refine ⟨?_, ?_, ?_, ?_, ?_⟩
  · simp [wrapGetattr, hnew]
  · intro opts hok
    simp [wrapCall, pyFalsyOptStr, hp, hnew, hok]
  · simp [wrapGetattr, hnew, PyDict.find?_set_self]
  · intro opts hok
    simp [wrapCall, pyFalsyOptStr, hp, hnew, hok, PyDict.find?_set_self]
  · intro st2 hst2
    refine ⟨?_, ?_⟩
    · simp [wrapGetattr, hst2]
    · intro opts
      simp [wrapCall, pyFalsyOptStr, hp, hst2]

/-- A concrete freshly initialized root node
`Wrap('api', debug=False)` for the witnesses: identity 0, the
`__init__`-built instance dictionary, no children yet, next identity 1. -/
def sampleWrapState : WrapState :=
  { selfId := 0,
    dict := wrapInitDict "api" (PyVal.clientRef 1) none (PyVal.pybool false)
      PyVal.pynone,
    children := [],
    nextId := 1 }

theorem child_access_memoized_witness :
    (wrapGetattr sampleWrapState "users").2 = PyVal.wrapRef 1 ∧
    (wrapCall sampleWrapState (some "users")
        [("cache_lifetime", PyVal.pyint 5)]).2 =
      CallResult.val (PyVal.wrapRef 1) ∧
    wrapGetattr (wrapGetattr sampleWrapState "users").1 "users" =
      ((wrapGetattr sampleWrapState "users").1, PyVal.wrapRef 1) ∧
    wrapCall (wrapGetattr sampleWrapState "users").1 (some "users")
        [("debug", PyVal.pybool true)] =
      ((wrapGetattr sampleWrapState "users").1,
       CallResult.val (PyVal.wrapRef 1)) := by
  have h := child_access_memoized sampleWrapState "users" (by decide)
    (by decide)
  have hstored := h.2.2.1
  exact ⟨h.1, h.2.1 _ (by decide), (h.2.2.2.2 _ hstored).1,
    (h.2.2.2.2 _ hstored).2 _⟩

/-- Claim C10: internal-name collision on call-style access.  Calling
`node(name)` with a non-empty name that is bound in the instance dictionary
returns the stored value — whatever it is — and leaves the whole state
(including the children) untouched for any options; only a name absent from
the dictionary allocates a new child: with options the child constructor
accepts it is created recording those options, while an option key that
collides with an explicit keyword or the `__init__` signature raises
`TypeError` and creates nothing. -/
theorem call_internal_name_collision (st : WrapState) (p : String)
    (hp : p ≠ "") :
    (∀ v : PyVal, PyDict.find? st.dict p = some v →
      ∀ opts : CallOpts, wrapCall st (some p) opts = (st, .val v)) ∧
    (PyDict.find? st.dict p = none →
      ∀ opts : CallOpts,
        (ctorOptsOk opts = true →
          (wrapCall st (some p) opts).2 =
            CallResult.val (PyVal.wrapRef st.nextId) ∧
          (wrapCall st (some p) opts).1.children =
            st.children ++ [(st.nextId,
              { part := p, parentId := st.selfId, debug := selfDebugVal st,
                opts := opts })]) ∧
        (ctorOptsOk opts = false →
          wrapCall st (some p) opts = (st, .typeError))) := by
  constructor
  · intro v hv opts
    simp [wrapCall, pyFalsyOptStr, hp, hv]
  · intro hnone opts
    constructor
    · intro hok
      constructor <;> simp [wrapCall, pyFalsyOptStr, hp, hnone, hok]
    · intro hbad
      simp [wrapCall, pyFalsyOptStr, hp, hnone, hbad]

theorem call_internal_name_collision_witness :
    wrapCall sampleWrapState (some "part")
        [("cache_lifetime", PyVal.pyint 5)] =
      (sampleWrapState, CallResult.val (PyVal.pystr "api")) ∧
    wrapCall sampleWrapState (some "parent") [] =
      (sampleWrapState, CallResult.val (PyVal.clientRef 1)) ∧
    (wrapCall sampleWrapState (some "posts")
        [("cache_lifetime", PyVal.pyint 5)]).1.children =
      [(1, { part := "posts", parentId := 0,
             debug := PyVal.pybool false,
             opts := [("cache_lifetime", PyVal.pyint 5)] })] ∧
    wrapCall sampleWrapState (some "posts") [("debug", PyVal.pybool true)] =
      (sampleWrapState, CallResult.typeError) := by
  refine ⟨?_, ?_, ?_, ?_⟩
  · exact (call_internal_name_collision sampleWrapState "part"
      (by decide)).1 _ (by decide) _
  · exact (call_internal_name_collision sampleWrapState "parent"
      (by decide)).1 _ (by decide) _
  · have h := (((call_internal_name_collision sampleWrapState "posts"
      (by decide)).2 (by decide) [("cache_lifetime", PyVal.pyint 5)]).1
      (by decide)).2
    simpa [sampleWrapState, selfDebugVal, wrapInitDict, PyDict.find?] using h
  · exact ((call_internal_name_collision sampleWrapState "posts"
      (by decide)).2 (by decide) [("debug", PyVal.pybool true)]).2
      (by decide)

/-- Claim C2: cache-store condition.  When the cache holds no unexpired entry
for the key and the response body parses, the call completes normally
(returns the parsed value), and afterwards the cache holds an entry for the
key exactly when the method is GET (case-insensitive) and the cache lifetime
is a strictly positive number; the entry is then the parsed value with expiry
now plus the lifetime.  An absent lifetime compares as not greater than zero
(Python 2), so it never stores. -/
theorem cache_store_condition (st : ClientState) (method url0 : String)
    (path : PathArg) (params : Option Params) (headersArg : Option Headers)
    (debugArg : Option Bool) (cacheLifetime : Option Int) (now : Int)
    (resp : HttpResponse) (j : JSON)
    (hnohit : ∀ e : CacheEntry,
      PyDict.find? st.cache (requestKey url0 path params headersArg) =
        some e → e.expires ≤ now)
    (hparse : resp.body = some j) :
    (clientRequest st method url0 path params headersArg debugArg
        cacheLifetime now resp).result = .ok (bunchify j) ∧
    PyDict.find?
        (clientRequest st method url0 path params headersArg debugArg
          cacheLifetime now resp).cache
        (requestKey url0 path params headersArg) =
      (if pyGtZero cacheLifetime && (pyLower method == "get") then
        some { expires := now + cacheLifetime.getD 0, value := j }
      else none) ∧
    ((PyDict.find?
        (clientRequest st method url0 path params headersArg debugArg
          cacheLifetime now resp).cache
        (requestKey url0 path params headersArg)).isSome = true ↔
      pyGtZero cacheLifetime = true ∧ pyLower method = "get") := by
  obtain ⟨cb, hcb, hother, hsame, heq⟩ := clientRequest_nohit st method url0
    path params headersArg debugArg cacheLifetime now resp hnohit
  rw [heq, clientRequestNet_parse_ok _ _ _ _ _ _ _ _ _ hparse]
  refine ⟨rfl, ?_, ?_⟩
  · by_cases hcond : (pyGtZero cacheLifetime &&
        (pyLower method == "get")) = true
    · rw [if_pos hcond, if_pos hcond, PyDict.find?_set_self]
    · rw [if_neg hcond, if_neg hcond, hcb]
  · by_cases hcond : (pyGtZero cacheLifetime &&
        (pyLower method == "get")) = true
    · rw [if_pos hcond, PyDict.find?_set_self]
      have hc := Bool.and_eq_true_iff.mp hcond
      simpa using ⟨hc.1, beq_iff_eq.mp hc.2⟩
    · rw [if_neg hcond, hcb]
      simp only [Option.isSome_none, Bool.false_eq_true, false_iff]
      intro hc
      exact hcond (Bool.and_eq_true_iff.mpr ⟨hc.1, beq_iff_eq.mpr hc.2⟩)

theorem cache_store_condition_witness :
    (clientRequest ⟨[], none, []⟩ "GET" "u" (.str "") none none none
        (some 5) 0 ⟨200, "OK", some (.str "v")⟩).result =
      .ok (bunchify (.str "v")) ∧
    PyDict.find?
        (clientRequest ⟨[], none, []⟩ "GET" "u" (.str "") none none none
          (some 5) 0 ⟨200, "OK", some (.str "v")⟩).cache
        (requestKey "u" (.str "") none none) =
      some { expires := 5, value := JSON.str "v" } ∧
    PyDict.find?
        (clientRequest ⟨[], none, []⟩ "POST" "u" (.str "") none none none
          (some 5) 0 ⟨200, "OK", some (.str "v")⟩).cache
        (requestKey "u" (.str "") none none) = none ∧
    PyDict.find?
        (clientRequest ⟨[], none, []⟩ "GET" "u" (.str "") none none none
          none 0 ⟨200, "OK", some (.str "v")⟩).cache
        (requestKey "u" (.str "") none none) = none := by
  have hempty : ∀ e : CacheEntry,
      PyDict.find? ([] : Cache) (requestKey "u" (.str "") none none) =
        some e → e.expires ≤ (0 : Int) := by
    intro e h
    simp [PyDict.find?] at h
  refine ⟨?_, ?_, ?_, ?_⟩
  · exact (cache_store_condition ⟨[], none, []⟩ "GET" "u" (.str "") none
      none none (some 5) 0 ⟨200, "OK", some (.str "v")⟩ (.str "v") hempty
      rfl).1
  · exact ((cache_store_condition ⟨[], none, []⟩ "GET" "u" (.str "") none
      none none (some 5) 0 ⟨200, "OK", some (.str "v")⟩ (.str "v") hempty
      rfl).2.1).trans rfl
  · exact ((cache_store_condition ⟨[], none, []⟩ "POST" "u" (.str "") none
      none none (some 5) 0 ⟨200, "OK", some (.str "v")⟩ (.str "v") hempty
      rfl).2.1).trans rfl
  · exact ((cache_store_condition ⟨[], none, []⟩ "GET" "u" (.str "") none
      none none none 0 ⟨200, "OK", some (.str "v")⟩ (.str "v") hempty
      rfl).2.1).trans rfl

/-- Claim C3: cache lookup.  When the cache holds an entry for the computed
key: if it is unexpired the stored value is returned, no transport call is
made, the cache is unchanged and the cached-response trace is selected; if it
is expired, the request proceeds to the transport and the old entry is no
longer in the cache afterwards. -/
theorem cache_lookup_behavior (st : ClientState) (method url0 : String)
    (path : PathArg) (params : Option Params) (headersArg : Option Headers)
    (debugArg : Option Bool) (cacheLifetime : Option Int) (now : Int)
    (resp : HttpResponse) (e : CacheEntry)
    (hfind : PyDict.find? st.cache (requestKey url0 path params headersArg) =
      some e) :
    (now < e.expires →
      (clientRequest st method url0 path params headersArg debugArg
          cacheLifetime now resp).result = .ok (bunchify e.value) ∧
      (clientRequest st method url0 path params headersArg debugArg
          cacheLifetime now resp).networkUsed = false ∧
      (clientRequest st method url0 path params headersArg debugArg
          cacheLifetime now resp).cache = st.cache ∧
      (clientRequest st method url0 path params headersArg debugArg
          cacheLifetime now resp).trace = some .cached) ∧
    (e.expires ≤ now →
      (clientRequest st method url0 path params headersArg debugArg
          cacheLifetime now resp).networkUsed = true ∧
      PyDict.find?
          (clientRequest st method url0 path params headersArg debugArg
            cacheLifetime now resp).cache
          (requestKey url0 path params headersArg) ≠ some e) := by
  constructor
  · intro hexp
    rw [clientRequest_hit st method url0 path params headersArg debugArg
      cacheLifetime now resp e hfind hexp]
    exact ⟨rfl, rfl, rfl, rfl⟩
  · intro hexp
    rw [clientRequest_expired st method url0 path params headersArg debugArg
      cacheLifetime now resp e hfind hexp]
    cases hb : resp.body with
    | none =>
        rw [clientRequestNet_parse_fail _ _ _ _ _ _ _ _ hb]
        refine ⟨rfl, ?_⟩
        rw [PyDict.find?_erase_self]
        simp
    | some j =>
        rw [clientRequestNet_parse_ok _ _ _ _ _ _ _ _ _ hb]
        refine ⟨rfl, ?_⟩
        by_cases hcond : (pyGtZero cacheLifetime &&
            (pyLower method == "get")) = true
        · rw [if_pos hcond, PyDict.find?_set_self]
          intro hcontra
          have hinj := Option.some.inj hcontra
          have hexpnew : now + cacheLifetime.getD 0 = e.expires :=
            congrArg CacheEntry.expires hinj
          have hpos := (Bool.and_eq_true_iff.mp hcond).1
          rcases cacheLifetime with _ | n
          · simp [pyGtZero] at hpos
          · have hn : (0 : Int) < n := by simpa [pyGtZero] using hpos
            simp only [Option.getD_some] at hexpnew
            omega
        · rw [if_neg hcond, PyDict.find?_erase_self]
          simp

theorem cache_lookup_behavior_witness :
    ((clientRequest ⟨[], none,
        [(("api/users", "None", "None"),
          { expires := 100, value := JSON.str "cached" })]⟩ "get"
        "api/users" (.str "") none none none none 50
        ⟨200, "OK", some (.str "fresh")⟩).result =
      .ok (bunchify (.str "cached")) ∧
    (clientRequest ⟨[], none,
        [(("api/users", "None", "None"),
          { expires := 100, value := JSON.str "cached" })]⟩ "get"
        "api/users" (.str "") none none none none 50
        ⟨200, "OK", some (.str "fresh")⟩).networkUsed = false) ∧
    ((clientRequest ⟨[], none,
        [(("api/users", "None", "None"),
          { expires := 100, value := JSON.str "cached" })]⟩ "get"
        "api/users" (.str "") none none none none 150
        ⟨200, "OK", some (.str "fresh")⟩).networkUsed = true ∧
    PyDict.find?
        (clientRequest ⟨[], none,
          [(("api/users", "None", "None"),
            { expires := 100, value := JSON.str "cached" })]⟩ "get"
          "api/users" (.str "") none none none none 150
          ⟨200, "OK", some (.str "fresh")⟩).cache
        (requestKey "api/users" (.str "") none none) ≠
      some { expires := 100, value := JSON.str "cached" }) := by
  constructor
  · have h := (cache_lookup_behavior ⟨[], none,
      [(("api/users", "None", "None"),
        { expires := 100, value := JSON.str "cached" })]⟩ "get"
      "api/users" (.str "") none none none none 50
      ⟨200, "OK", some (.str "fresh")⟩
      { expires := 100, value := JSON.str "cached" } rfl).1
      (by decide)
    exact ⟨h.1, h.2.1⟩
  · exact (cache_lookup_behavior ⟨[], none,
      [(("api/users", "None", "None"),
        { expires := 100, value := JSON.str "cached" })]⟩ "get"
      "api/users" (.str "") none none none none 150
      ⟨200, "OK", some (.str "fresh")⟩
      { expires := 100, value := JSON.str "cached" } rfl).2
      (by decide)

/-- Claim C4 counterexample: with an expired cache entry stored under the
request's key and a malformed response body, the call raises the parse error
and the cache is not left as it was — the expired entry has been removed. -/
theorem parse_failure_cache_counterexample :
    (clientRequest ⟨[], none,
        [(("u", "None", "None"), { expires := 5, value := JSON.null })]⟩
        "get" "u" (.str "") none none none none 10
        ⟨500, "err", none⟩).result = .error .parseError ∧
    PyDict.find?
        ([(("u", "None", "None"),
          { expires := 5, value := JSON.null })] : Cache)
        ("u", "None", "None") =
      some { expires := 5, value := JSON.null } ∧
    PyDict.find?
        (clientRequest ⟨[], none,
          [(("u", "None", "None"), { expires := 5, value := JSON.null })]⟩
          "get" "u" (.str "") none none none none 10
          ⟨500, "err", none⟩).cache ("u", "None", "None") = none :=
  ⟨rfl, rfl, rfl⟩

/-- Claim C4 (amended): for every call not served from the cache whose
response body is not valid JSON, the parse error is raised, no cache entry is
added, and the cache is unchanged except that an expired entry stored under
the request's own key has been removed. -/
theorem parse_failure_cache_amended (st : ClientState) (method url0 : String)
    (path : PathArg) (params : Option Params) (headersArg : Option Headers)
    (debugArg : Option Bool) (cacheLifetime : Option Int) (now : Int)
    (resp : HttpResponse)
    (hnohit : ∀ e : CacheEntry,
      PyDict.find? st.cache (requestKey url0 path params headersArg) =
        some e → e.expires ≤ now)
    (hparse : resp.body = none) :
    (clientRequest st method url0 path params headersArg debugArg
        cacheLifetime now resp).result = .error .parseError ∧
    PyDict.find?
        (clientRequest st method url0 path params headersArg debugArg
          cacheLifetime now resp).cache
        (requestKey url0 path params headersArg) = none ∧
    (∀ k2 : CacheKey, k2 ≠ requestKey url0 path params headersArg →
      PyDict.find?
          (clientRequest st method url0 path params headersArg debugArg
            cacheLifetime now resp).cache k2 =
        PyDict.find? st.cache k2) ∧
    (PyDict.find? st.cache (requestKey url0 path params headersArg) = none →
      (clientRequest st method url0 path params headersArg debugArg
        cacheLifetime now resp).cache = st.cache) := by
  obtain ⟨cb, hcb, hother, hsame, heq⟩ := clientRequest_nohit st method url0
    path params headersArg debugArg cacheLifetime now resp hnohit
  rw [heq, clientRequestNet_parse_fail _ _ _ _ _ _ _ _ hparse]
  exact ⟨rfl, hcb, hother, hsame⟩

theorem parse_failure_cache_amended_witness :
    (clientRequest ⟨[], none, []⟩ "get" "u" (.str "") none none none none 0
        ⟨500, "err", none⟩).result = .error .parseError ∧
    (clientRequest ⟨[], none, []⟩ "get" "u" (.str "") none none none none 0
        ⟨500, "err", none⟩).cache = [] := by
  have h := parse_failure_cache_amended ⟨[], none, []⟩ "get" "u" (.str "")
    none none none none 0 ⟨500, "err", none⟩
    (fun e hx => by simp [PyDict.find?] at hx) rfl
  exact ⟨h.1, h.2.2.2 rfl⟩

/-- Claim C6: non-2xx is not an error.  When a response arrives (no unexpired
cache hit) and its body parses, the call returns the parsed value for every
status code — no exception for non-2xx statuses — and the status only selects
the response trace, by exact equality with 200: any other status, including
other 2xx codes, selects the failure trace. -/
theorem status_code_no_error (st : ClientState) (method url0 : String)
    (path : PathArg) (params : Option Params) (headersArg : Option Headers)
    (debugArg : Option Bool) (cacheLifetime : Option Int) (now : Int)
    (resp : HttpResponse) (j : JSON)
    (hnohit : ∀ e : CacheEntry,
      PyDict.find? st.cache (requestKey url0 path params headersArg) =
        some e → e.expires ≤ now)
    (hparse : resp.body = some j) :
    (clientRequest st method url0 path params headersArg debugArg
        cacheLifetime now resp).result = .ok (bunchify j) ∧
    (clientRequest st method url0 path params headersArg debugArg
        cacheLifetime now resp).trace =
      some (if resp.status_code == 200 then Trace.success else
        Trace.failure) := by
  obtain ⟨cb, hcb, hother, hsame, heq⟩ := clientRequest_nohit st method url0
    path params headersArg debugArg cacheLifetime now resp hnohit
  rw [heq, clientRequestNet_parse_ok _ _ _ _ _ _ _ _ _ hparse]
  exact ⟨rfl, rfl⟩

theorem status_code_no_error_witness :
    ((clientRequest ⟨[], none, []⟩ "get" "u" (.str "") none none none none 0
        ⟨201, "Created", some JSON.null⟩).result = .ok (bunchify .null) ∧
    (clientRequest ⟨[], none, []⟩ "get" "u" (.str "") none none none none 0
        ⟨201, "Created", some JSON.null⟩).trace = some Trace.failure) ∧
    (clientRequest ⟨[], none, []⟩ "get" "u" (.str "") none none none none 0
        ⟨200, "OK", some JSON.null⟩).trace = some Trace.success := by
  have hempty : ∀ e : CacheEntry,
      PyDict.find? ([] : Cache) (requestKey "u" (.str "") none none) =
        some e → e.expires ≤ (0 : Int) := by
    intro e hx
    simp [PyDict.find?] at hx
  constructor
  · have h := status_code_no_error ⟨[], none, []⟩ "get" "u" (.str "") none
      none none none 0 ⟨201, "Created", some JSON.null⟩ JSON.null hempty rfl
    exact ⟨h.1, h.2.trans rfl⟩
  · exact ((status_code_no_error ⟨[], none, []⟩ "get" "u" (.str "") none
      none none none 0 ⟨200, "OK", some JSON.null⟩ JSON.null hempty
      rfl).2).trans rfl

/-- Claim C7: header frame condition.  `Wrap.request` computes the effective
headers by copying the node's stored headers object and merging the per-call
option headers on top (call keys win, remaining own keys survive); the
node's stored headers object is unchanged afterwards, so a header passed for
one call does not persist — a later call without option headers gets exactly
the stored headers again. -/
theorem header_frame_condition (st : HeadersHeap) (selfRef : Nat)
    (own : Headers) (optHeaders : Option Headers)
    (hself : PyDict.find? st.refs selfRef = some own)
    (hfresh : selfRef < st.nextRef)
    (hnd : ((optHeaders.getD []).map Prod.fst).Nodup) :
    PyDict.find? (wrapEffectiveHeaders st selfRef optHeaders).1.refs
      selfRef = some own ∧
    (∃ eff : Headers,
      PyDict.find? (wrapEffectiveHeaders st selfRef optHeaders).1.refs
          (wrapEffectiveHeaders st selfRef optHeaders).2 = some eff ∧
      ∀ k : String, PyDict.find? eff k =
        (PyDict.find? (optHeaders.getD []) k).orElse
          (fun _ => PyDict.find? own k)) ∧
    PyDict.find?
        (wrapEffectiveHeaders (wrapEffectiveHeaders st selfRef optHeaders).1
          selfRef none).1.refs
        (wrapEffectiveHeaders (wrapEffectiveHeaders st selfRef optHeaders).1
          selfRef none).2 = some own := by
  have h1 : PyDict.find?
      (wrapEffectiveHeaders st selfRef optHeaders).1.refs selfRef =
      some own :=
    (wrapEffectiveHeaders_frame st selfRef selfRef optHeaders hfresh).trans
      hself
  exact ⟨h1, wrapEffectiveHeaders_result st selfRef own optHeaders hself hnd,
    wrapEffectiveHeaders_none_copy _ selfRef own h1⟩

theorem header_frame_condition_witness :
    PyDict.find?
        (wrapEffectiveHeaders ⟨[(0, [("X", "1")])], 1⟩ 0
          (some [("X", "2"), ("Y", "3")])).1.refs 0 = some [("X", "1")] ∧
    (∃ eff : Headers,
      PyDict.find?
          (wrapEffectiveHeaders ⟨[(0, [("X", "1")])], 1⟩ 0
            (some [("X", "2"), ("Y", "3")])).1.refs
          (wrapEffectiveHeaders ⟨[(0, [("X", "1")])], 1⟩ 0
            (some [("X", "2"), ("Y", "3")])).2 = some eff ∧
      PyDict.find? eff "X" = some "2" ∧
      PyDict.find? eff "Y" = some "3" ∧
      PyDict.find? eff "Z" = none) ∧
    PyDict.find?
        (wrapEffectiveHeaders
          (wrapEffectiveHeaders ⟨[(0, [("X", "1")])], 1⟩ 0
            (some [("X", "2"), ("Y", "3")])).1 0 none).1.refs
        (wrapEffectiveHeaders
          (wrapEffectiveHeaders ⟨[(0, [("X", "1")])], 1⟩ 0
            (some [("X", "2"), ("Y", "3")])).1 0 none).2 =
      some [("X", "1")] := by
  have h := header_frame_condition ⟨[(0, [("X", "1")])], 1⟩ 0 [("X", "1")]
    (some [("X", "2"), ("Y", "3")]) rfl (by decide) (by decide)
  obtain ⟨eff, heff, hform⟩ := h.2.1
  exact ⟨h.1, ⟨eff, heff, (hform "X").trans rfl, (hform "Y").trans rfl,
    (hform "Z").trans rfl⟩, h.2.2⟩

/-- Claim C8: debug inheritance.  A child created by dynamic access inherits
the current node's debug value; at request time a node's non-absent debug is
set on the options only as a default (an explicitly passed debug survives
every hop of the dispatch); consequently, for a node with debug `b` (such as
a root created with debug=False) and a child created without overriding
debug, the effective debug flag at the Client when that child performs a
request is exactly `b`, whatever the Client's own debug flag is. -/
theorem debug_inheritance (w : Wrap) (p : String) (pk : Pk) (o : ReqOptions)
    (b : Bool) (hw : w.debug = some b) (ho : o.debug = none) :
    (w.childAttr p).debug = some b ∧
    (∀ (o2 : ReqOptions) (db : Bool), o2.debug = some db →
      (Wrap.requestStep (w.childAttr p) pk o2).debug = some db) ∧
    ((w.childAttr p).requestDispatch pk o).debug = some b ∧
    (∀ (stc : ClientState) (method url0 : String) (path : PathArg)
        (params : Option Params) (headersArg : Option Headers)
        (cacheLifetime : Option Int) (now : Int) (resp : HttpResponse),
      (clientRequest stc method url0 path params headersArg
          ((w.childAttr p).requestDispatch pk o).debug cacheLifetime now
          resp).effDebug = some b) := by
  have hchild : (w.childAttr p).debug = some b := hw
  have hstep : (Wrap.requestStep (w.childAttr p) pk o).debug = some b := by
    rw [Wrap.requestStep, stepHeaders_debug, stepCacheLifetime_debug]
    exact stepDebug_of_none _ _ b ((stepUrl_debug _ pk o).trans ho) hchild
  have hdisp : ((w.childAttr p).requestDispatch pk o).debug = some b := by
    simp only [Wrap.childAttr] at hstep ⊢
    simp only [Wrap.requestDispatch]
    exact requestDispatch_debug_of_some w .pynone _ b hstep
  refine ⟨hchild, ?_, hdisp, ?_⟩
  · intro o2 db h2
    exact requestStep_debug_of_some _ pk o2 db h2
  · intro stc method url0 path params headersArg cacheLifetime now resp
    rw [clientRequest_effDebug, hdisp]
    rfl

theorem debug_inheritance_witness :
    ((Wrap.root "api" [] (some false) none).childAttr "users").debug =
      some false ∧
    (((Wrap.root "api" [] (some false) none).childAttr
        "users").requestDispatch .pynone ⟨none, none, none, none⟩).debug =
      some false ∧
    (clientRequest ⟨[], some true, []⟩ "get" "api/users" (.str "") none none
        ((((Wrap.root "api" [] (some false) none).childAttr
          "users").requestDispatch .pynone
            ⟨none, none, none, none⟩).debug) none 0
        ⟨200, "OK", some JSON.null⟩).effDebug = some false := by
  have h := debug_inheritance (Wrap.root "api" [] (some false) none) "users"
    .pynone ⟨none, none, none, none⟩ false rfl rfl
  exact ⟨h.1, h.2.2.1, h.2.2.2 _ _ _ _ _ _ _ _ _⟩

/-- Claim C9: falsy primary keys are treated as absent.  With no explicit URL
option, a falsy primary key (None, 0, or the empty string) leaves the URL as
the node's path alone — through the whole dispatch chain when the path is
nonempty — while a truthy primary key appends a slash and its string form. -/
theorem falsy_pk_absent (w : Wrap) (pk : Pk) (o : ReqOptions)
    (hurl : o.url = none) :
    (pk.truthy = false →
      (Wrap.requestStep w pk o).url = some w.parts ∧
      (w.parts ≠ "" → (w.requestDispatch pk o).url = some w.parts)) ∧
    (pk.truthy = true →
      (Wrap.requestStep w pk o).url = some (w.parts ++ "/" ++ pk.toStr)) := by
  have hstep_url : pk.truthy = false →
      (Wrap.requestStep w pk o).url = some w.parts := by
    intro hpk
    rw [Wrap.requestStep, stepHeaders_url, stepCacheLifetime_url,
      stepDebug_url]
    simp [Wrap.stepUrl, pyFalsyOptStr, hurl, hpk]
  refine ⟨fun hpk => ⟨hstep_url hpk, fun hne => ?_⟩, fun hpk => ?_⟩
  · cases w with
    | root part h d cl =>
        simp only [Wrap.requestDispatch]
        exact hstep_url hpk
    | child part parent h d cl =>
        simp only [Wrap.requestDispatch]
        exact requestDispatch_url_of_some parent .pynone _ _
          (hstep_url hpk) hne
  · rw [Wrap.requestStep, stepHeaders_url, stepCacheLifetime_url,
      stepDebug_url]
    simp [Wrap.stepUrl, pyFalsyOptStr, hurl, hpk, joinSlash, joinWith]

theorem falsy_pk_absent_witness :
    (Wrap.requestStep (Wrap.root "api" [] none none) (.int 0)
        ⟨none, none, none, none⟩).url = some "api" ∧
    (Wrap.requestStep (Wrap.root "api" [] none none) (.str "")
        ⟨none, none, none, none⟩).url = some "api" ∧
    (Wrap.requestStep (Wrap.root "api" [] none none) .pynone
        ⟨none, none, none, none⟩).url = some "api" ∧
    (Wrap.requestDispatch
        ((Wrap.root "api" [] none none).childAttr "users") (.int 0)
        ⟨none, none, none, none⟩).url = some "api/users" ∧
    (Wrap.requestStep (Wrap.root "api" [] none none) (.int 42)
        ⟨none, none, none, none⟩).url = some "api/42" := by
  refine ⟨?_, ?_, ?_, ?_, ?_⟩
  · exact ((falsy_pk_absent (Wrap.root "api" [] none none) (.int 0)
      ⟨none, none, none, none⟩ rfl).1 rfl).1
  · exact ((falsy_pk_absent (Wrap.root "api" [] none none) (.str "")
      ⟨none, none, none, none⟩ rfl).1 rfl).1
  · exact ((falsy_pk_absent (Wrap.root "api" [] none none) .pynone
      ⟨none, none, none, none⟩ rfl).1 rfl).1
  · exact (((falsy_pk_absent
      ((Wrap.root "api" [] none none).childAttr "users") (.int 0)
      ⟨none, none, none, none⟩ rfl).1 rfl).2 (by decide)).trans rfl
  · exact ((falsy_pk_absent (Wrap.root "api" [] none none) (.int 42)
      ⟨none, none, none, none⟩ rfl).2 rfl).trans rfl

end Tortilla
